import Mathlib

/-!
# aziomq `zeromq_socket_service`: a shallow embedding

The service of `src/aziomq/detail/zeromq_socket_service.hpp` is embedded as pure
functions over the per-socket record `implementation_type`.

* Pointers (`void*` handles, the shared context pointer, the reactor's
  per-descriptor data) are natural numbers, `0` being `nullptr`.
* A `boost::system::error_code&` parameter is an input of every function that has
  one, and the value it holds on exit is part of the result: all these functions
  return the value they leave in `ec`.
* Calls into libzmq, `socket_ops` and the reactor are answered by an `Env`, one
  per call of a service function, and recorded in a trace of `Event`s.
* A C++ exception or a failed `BOOST_ASSERT_MSG` is an `Exit` value, next to the
  state reached when it happened.
-/

namespace Aziomq

/-! ## Error codes -/

/-- Error categories told apart by the service: the default `system_category` of
`boost::system::error_code()`, the `generic_category` of `errc` values and the
category of the library's own `make_error_code`. -/
inductive error_category where
  | system
  | generic
  | aziomq
deriving DecidableEq, Repr

/-- A `boost::system::error_code`: an integer value in a category. -/
structure error_code where
  value : Int
  category : error_category
deriving DecidableEq, Repr

/-- The default-constructed `boost::system::error_code()`: no error. -/
def error_code.ok : error_code := ⟨0, error_category.system⟩

/-- The conversion `if (ec)`: true when the code holds an error. -/
def error_code.failed (ec : error_code) : Bool := ec.value != 0

/-- Constant `EBADF`, the value of `boost::system::errc::bad_file_descriptor`. -/
def EBADF : Int := 9

/-- Constant `EINVAL`, the value of `boost::system::errc::invalid_argument`. -/
def EINVAL : Int := 22

/-- Constant `EISCONN`, the value of `boost::system::errc::already_connected` (Linux). -/
def EISCONN : Int := 106

/-- The `boost::system::errc` enumerators the service uses. -/
inductive errc where
  | bad_file_descriptor
  | invalid_argument
  | already_connected
deriving DecidableEq, Repr

/-- Numeric value of an `errc` enumerator. -/
def errc.value : errc → Int
  | errc.bad_file_descriptor => EBADF
  | errc.invalid_argument => EINVAL
  | errc.already_connected => EISCONN

/-- Boost `make_error_code(errc::...)`: the value in `generic_category`. -/
def make_error_code_errc (e : errc) : error_code := ⟨e.value, error_category.generic⟩

/-- Modelled from the spec: `make_error_code(int ev = errno)` of `error.hpp`, which
is not under `src/`; it wraps the library's error number, unchanged, in the
library's category. -/
def make_error_code (ev : Int) : error_code := ⟨ev, error_category.aziomq⟩

/-! ## The socket record -/

/-- The `void*` transport handle; `0` is `nullptr`. -/
abbrev socket_type := Nat

/-- The OS descriptor `socket_ops::native_handle_type`. -/
abbrev native_handle_type := Int

/-- The endpoint string `socket_ops::endpoint_type`. -/
abbrev endpoint_type := String

/-- The reactor's `per_descriptor_data`, a pointer owned by the reactor. -/
abbrev per_descriptor_data := Nat

/-- The shared context pointer `std::shared_ptr<void>`; `0` is the empty pointer. -/
abbrev context_pointer_type := Nat

/-- The per-socket record `implementation_type`. -/
structure implementation_type where
  socket_ : socket_type
  shutdown_ : Int
  endpoint_ : endpoint_type
  reactor_data_ : per_descriptor_data
deriving DecidableEq, Repr

/-- The reactor's `read_op`. -/
def read_op : Int := 0

/-- The reactor's `write_op`. -/
def write_op : Int := 1

/-- The flag `ZMQ_DONTWAIT` of `zmq.h`. -/
def ZMQ_DONTWAIT : Int := 1

/-- Which operation class an async call instantiates. -/
inductive op_kind where
  | send
  | receive
deriving DecidableEq, Repr

/-- A `zeromq_send_op` / `zeromq_receive_op` as the service builds it: the four
constructor arguments. Buffers are kept as their lengths, the handler as a token. -/
structure zeromq_op where
  kind : op_kind
  socket_ : socket_type
  buffers_ : List Nat
  handler_ : Nat
  flags_ : Int
deriving DecidableEq, Repr

/-! ## The collaborators -/

/-- Calls the service makes on libzmq, `socket_ops` and the reactor. -/
inductive Event where
  | zmq_socket (ctx : context_pointer_type) (type : Int)
  | zmq_close (s : socket_type)
  | native_handle (s : socket_type)
  | register_descriptor (fd : native_handle_type)
  | deregister_descriptor (fd : native_handle_type) (data : per_descriptor_data) (closing : Bool)
  | move_descriptor (fd : native_handle_type) (target source : per_descriptor_data)
  | cancel_ops (fd : native_handle_type) (data : per_descriptor_data)
  | socket_bind (s : socket_type) (e : endpoint_type)
  | socket_connect (s : socket_type) (e : endpoint_type)
  | post_immediate_completion (op : zeromq_op) (is_continuation : Bool)
  | start_op (op_type : Int) (fd : native_handle_type) (data : per_descriptor_data)
      (op : zeromq_op) (is_continuation is_non_blocking : Bool)
deriving DecidableEq, Repr

/-- What the collaborators answer during one call of a service function. None of
them is under `src/`, so each is a parameter.

* `errno`: the error number `make_error_code()` reads;
* `socket_ops_native_handle s ec`: the returned code and the descriptor written to `res`;
* `register_descriptor fd data`: the returned error number and the data it installs;
* `socket_ops_bind s e ec`, `socket_ops_connect s e ec`: the returned code;
* `is_noop`: `reactor_op::is_noop`; `is_continuation`: the handler hook. -/
structure Env where
  errno : Int
  zmq_socket : context_pointer_type → Int → socket_type
  zmq_close : socket_type → Int
  socket_ops_native_handle : socket_type → error_code → error_code × native_handle_type
  register_descriptor : native_handle_type → per_descriptor_data → Int × per_descriptor_data
  deregister_descriptor : native_handle_type → per_descriptor_data → Bool → per_descriptor_data
  move_descriptor : native_handle_type → per_descriptor_data → per_descriptor_data →
    per_descriptor_data × per_descriptor_data
  socket_ops_bind : socket_type → endpoint_type → error_code → error_code
  socket_ops_connect : socket_type → endpoint_type → error_code → error_code
  zmq_ctx_set : context_pointer_type → Int → Int → Int
  zmq_ctx_get : context_pointer_type → Int → Int
  is_noop : zeromq_op → Bool
  is_continuation : Nat → Bool

/-- How a call ended: by `return`, by a thrown `boost::system::system_error`, or in
a failed `BOOST_ASSERT_MSG`. -/
inductive Exit where
  | returned
  | threw (e : error_code)
  | assertion_failed
deriving DecidableEq, Repr

/-- Result of a function with an `error_code&` parameter: the record and the
caller's `ec` on exit (also the returned value), the calls made, and the exit. -/
structure Step where
  impl : implementation_type
  ec : error_code
  trace : List Event
  exit : Exit
deriving DecidableEq, Repr

/-- Result of a `void` function on one record. -/
structure Effect where
  impl : implementation_type
  trace : List Event
  exit : Exit
deriving DecidableEq, Repr

/-- Result of a move: destination `impl`, source `other`, calls made, exit. -/
structure Moved where
  impl : implementation_type
  other : implementation_type
  trace : List Event
  exit : Exit
deriving DecidableEq, Repr

/-- Result of an async call: the operation object built, calls made, exit. -/
structure Started where
  op : zeromq_op
  trace : List Event
  exit : Exit
deriving DecidableEq, Repr

/-! ## The service functions -/

/-- Source `construct`: null handle, shutdown sentinel `-1`. -/
def construct (impl : implementation_type) : implementation_type :=
  { impl with socket_ := 0, shutdown_ := -1 }

/-- Source `is_open`: the handle is not `nullptr`. -/
def is_open (impl : implementation_type) : Bool := impl.socket_ != 0

/-- Source `native_handle`: asks `socket_ops::native_handle` with a fresh `ec` and throws
the code it returns when that holds an error. -/
def native_handle (env : Env) (impl : implementation_type) : Except error_code native_handle_type :=
  let r := env.socket_ops_native_handle impl.socket_ error_code.ok
  if r.1.failed then Except.error r.1 else Except.ok r.2

/-- Source `close`: asserts the handle, calls `zmq_close`, nulls the handle; `ec` is
reset first and set to the library's error when `zmq_close` returns non-zero. -/
def close (env : Env) (impl : implementation_type) (ec : error_code) : Step :=
  if impl.socket_ = 0 then ⟨impl, ec, [], Exit.assertion_failed⟩
  else
    let rc := env.zmq_close impl.socket_
    let ec1 := if rc ≠ 0 then make_error_code env.errno else error_code.ok
    ⟨{ impl with socket_ := 0 }, ec1, [Event.zmq_close impl.socket_], Exit.returned⟩

/-- Source `destroy`: nothing on an unopened record; otherwise queries the descriptor
(which may throw), deregisters it, then closes with a local `ec`. -/
def destroy (env : Env) (impl : implementation_type) : Effect :=
  if !is_open impl then ⟨impl, [], Exit.returned⟩
  else
    match native_handle env impl with
    | Except.error e => ⟨impl, [Event.native_handle impl.socket_], Exit.threw e⟩
    | Except.ok fd =>
      let data := env.deregister_descriptor fd impl.reactor_data_ true
      let c := close env { impl with reactor_data_ := data } error_code.ok
      ⟨c.impl, [Event.native_handle impl.socket_,
                Event.deregister_descriptor fd impl.reactor_data_ true] ++ c.trace, c.exit⟩

/-- Source `move_construct(impl, other_service, other)`: the three field transfers,
then `move_descriptor` on the destination's descriptor, whose query may throw
(after the transfers). `env` stands for `other_service` and its reactor. -/
def move_construct (env : Env) (impl other : implementation_type) : Moved :=
  let impl1 := { impl with socket_ := other.socket_, shutdown_ := other.shutdown_,
                           endpoint_ := other.endpoint_ }
  let other1 := { other with socket_ := 0, shutdown_ := -1, endpoint_ := "" }
  match native_handle env impl1 with
  | Except.error e => ⟨impl1, other1, [Event.native_handle impl1.socket_], Exit.threw e⟩
  | Except.ok fd =>
    let r := env.move_descriptor fd impl1.reactor_data_ other1.reactor_data_
    ⟨{ impl1 with reactor_data_ := r.1 }, { other1 with reactor_data_ := r.2 },
     [Event.native_handle impl1.socket_,
      Event.move_descriptor fd impl1.reactor_data_ other1.reactor_data_], Exit.returned⟩

/-- Source `move_assign(impl, other_service, other)`: `destroy(impl)` first, and when
that throws nothing has been moved; then the same transfers and `move_descriptor`
as `move_construct`. `envd` answers the calls of `destroy`, `env` the rest. -/
def move_assign (envd env : Env) (impl other : implementation_type) : Moved :=
  let d := destroy envd impl
  match d.exit with
  | Exit.returned =>
    let impl1 := { d.impl with socket_ := other.socket_, shutdown_ := other.shutdown_,
                               endpoint_ := other.endpoint_ }
    let other1 := { other with socket_ := 0, shutdown_ := -1, endpoint_ := "" }
    match native_handle env impl1 with
    | Except.error e =>
      ⟨impl1, other1, d.trace ++ [Event.native_handle impl1.socket_], Exit.threw e⟩
    | Except.ok fd =>
      let r := env.move_descriptor fd impl1.reactor_data_ other1.reactor_data_
      ⟨{ impl1 with reactor_data_ := r.1 }, { other1 with reactor_data_ := r.2 },
       d.trace ++ [Event.native_handle impl1.socket_,
                   Event.move_descriptor fd impl1.reactor_data_ other1.reactor_data_],
       Exit.returned⟩
  | x => ⟨d.impl, other, d.trace, x⟩

/-- Source `do_open`: asserts the context; rejects an open record; creates the handle;
registers its descriptor under a scope guard that closes the handle on every exit
but the successful one. The guard runs `zmq_close(impl.socket_)` and nothing else;
the trailing log line does not touch the record. -/
def do_open (env : Env) (ctx_ : context_pointer_type) (impl : implementation_type)
    (type : Int) (ec : error_code) : Step :=
  if ctx_ = 0 then ⟨impl, ec, [], Exit.assertion_failed⟩
  else if is_open impl then
    ⟨impl, make_error_code_errc errc.bad_file_descriptor, [], Exit.returned⟩
  else
    let s := env.zmq_socket ctx_ type
    let impl1 := { impl with socket_ := s }
    if s = 0 then ⟨impl1, make_error_code env.errno, [Event.zmq_socket ctx_ type], Exit.returned⟩
    else
      match native_handle env impl1 with
      | Except.error e =>
        ⟨impl1, ec, [Event.zmq_socket ctx_ type, Event.native_handle s, Event.zmq_close s],
         Exit.threw e⟩
      | Except.ok fd =>
        let r := env.register_descriptor fd impl1.reactor_data_
        let impl2 := { impl1 with reactor_data_ := r.2 }
        if r.1 ≠ 0 then
          ⟨impl2, make_error_code r.1,
           [Event.zmq_socket ctx_ type, Event.native_handle s, Event.register_descriptor fd,
            Event.zmq_close s], Exit.returned⟩
        else
          ⟨impl2, ec,
           [Event.zmq_socket ctx_ type, Event.native_handle s, Event.register_descriptor fd],
           Exit.returned⟩

/-- Source `shutdown(impl, what, ec)`; `what` is the enumerator's integer value. -/
def shutdown (impl : implementation_type) (what : Int) (ec : error_code) : Step :=
  if impl.socket_ = 0 then
    ⟨impl, make_error_code_errc errc.bad_file_descriptor, [], Exit.returned⟩
  else if what < impl.shutdown_ then
    ⟨impl, make_error_code_errc errc.invalid_argument, [], Exit.returned⟩
  else ⟨{ impl with shutdown_ := what }, ec, [], Exit.returned⟩

/-- Source `cancel(impl, ec)`: `bad_file_descriptor` on an unopened record; otherwise
`cancel_ops` on the queried descriptor and `ec` reset to no error. -/
def cancel (env : Env) (impl : implementation_type) (ec : error_code) : Step :=
  if !is_open impl then
    ⟨impl, make_error_code_errc errc.bad_file_descriptor, [], Exit.returned⟩
  else
    match native_handle env impl with
    | Except.error e => ⟨impl, ec, [Event.native_handle impl.socket_], Exit.threw e⟩
    | Except.ok fd =>
      ⟨impl, error_code.ok,
       [Event.native_handle impl.socket_, Event.cancel_ops fd impl.reactor_data_],
       Exit.returned⟩

/-- Source `check_endpoint`: the caller's `ec` when `impl.endpoint_.empty()`, else
`already_connected`. -/
def check_endpoint (impl : implementation_type) (ec : error_code) : error_code :=
  if impl.endpoint_ = "" then ec else make_error_code_errc errc.already_connected

/-- Source `endpoint`: the recorded endpoint string. -/
def endpoint (impl : implementation_type) : endpoint_type := impl.endpoint_

/-- Source `bind(impl, endpoint, ec)`. -/
def bind (env : Env) (impl : implementation_type) (e : endpoint_type) (ec : error_code) : Step :=
  let ec1 := check_endpoint impl ec
  if ec1.failed then ⟨impl, ec1, [], Exit.returned⟩
  else
    let ec2 := env.socket_ops_bind impl.socket_ e ec1
    if ec2.failed then ⟨impl, ec2, [Event.socket_bind impl.socket_ e], Exit.returned⟩
    else ⟨{ impl with endpoint_ := e }, ec2, [Event.socket_bind impl.socket_ e], Exit.returned⟩

/-- Source `connect(impl, endpoint, ec)`. -/
def connect (env : Env) (impl : implementation_type) (e : endpoint_type) (ec : error_code) : Step :=
  let ec1 := check_endpoint impl ec
  if ec1.failed then ⟨impl, ec1, [], Exit.returned⟩
  else
    let ec2 := env.socket_ops_connect impl.socket_ e ec1
    if ec2.failed then ⟨impl, ec2, [Event.socket_connect impl.socket_ e], Exit.returned⟩
    else ⟨{ impl with endpoint_ := e }, ec2, [Event.socket_connect impl.socket_ e], Exit.returned⟩

/-- Context-scoped `set_option(option, ec)` (the bare name is a Lean keyword); `name`, `data` are `option.name()` and
`option.data()`. The library error is stored when `!rc`. -/
def context_set_option (env : Env) (ctx_ : context_pointer_type) (name data : Int)
    (ec : error_code) : error_code :=
  if ctx_ = 0 then make_error_code EINVAL
  else
    let rc := env.zmq_ctx_set ctx_ name data
    if rc = 0 then make_error_code env.errno else ec

/-- Context-scoped `get_option(option, ec)`: the returned code and the value
`option.set(rc)` stores, if any. The library error is stored when `rc < 0`. -/
def context_get_option (env : Env) (ctx_ : context_pointer_type) (name : Int)
    (ec : error_code) : error_code × Option Int :=
  if ctx_ = 0 then (make_error_code EINVAL, none)
  else
    let rc := env.zmq_ctx_get ctx_ name
    if rc < 0 then (make_error_code env.errno, none) else (ec, some rc)

/-- The private `start_op`: a no-op goes to the immediate-completion queue;
anything else to the reactor on the queried descriptor. -/
def start_op (env : Env) (impl : implementation_type) (op_type : Int) (op : zeromq_op)
    (is_continuation is_non_blocking : Bool) : List Event × Exit :=
  if env.is_noop op then ([Event.post_immediate_completion op is_continuation], Exit.returned)
  else
    match native_handle env impl with
    | Except.error e => ([Event.native_handle impl.socket_], Exit.threw e)
    | Except.ok fd =>
      ([Event.native_handle impl.socket_,
        Event.start_op op_type fd impl.reactor_data_ op is_continuation is_non_blocking],
       Exit.returned)

/-- Source `async_send`: builds the op with `flags | ZMQ_DONTWAIT`, starts it as `write_op`. -/
def async_send (env : Env) (impl : implementation_type) (buffers : List Nat) (handler : Nat)
    (flags : Int) : Started :=
  let is_continuation := env.is_continuation handler
  let p : zeromq_op := ⟨op_kind.send, impl.socket_, buffers, handler, Int.lor flags ZMQ_DONTWAIT⟩
  let r := start_op env impl write_op p is_continuation true
  ⟨p, r.1, r.2⟩

/-- Source `async_receive`: builds the op with `flags`, starts it as `read_op`. -/
def async_receive (env : Env) (impl : implementation_type) (buffers : List Nat) (handler : Nat)
    (flags : Int) : Started :=
  let is_continuation := env.is_continuation handler
  let p : zeromq_op := ⟨op_kind.receive, impl.socket_, buffers, handler, flags⟩
  let r := start_op env impl read_op p is_continuation true
  ⟨p, r.1, r.2⟩

/-! ## Notions used in the statements -/

/-- The two endpoint calls, `bind` and `connect`. -/
inductive endpoint_call where
  | bind
  | connect
deriving DecidableEq, Repr

/-- Runs the named endpoint call. -/
def endpoint_call.run : endpoint_call → Env → implementation_type → endpoint_type →
    error_code → Step
  | endpoint_call.bind => Aziomq.bind
  | endpoint_call.connect => Aziomq.connect

/-- The `socket_ops` call behind the named endpoint call. -/
def endpoint_call.native : endpoint_call → Env → socket_type → endpoint_type →
    error_code → error_code
  | endpoint_call.bind => Env.socket_ops_bind
  | endpoint_call.connect => Env.socket_ops_connect

/-- A sequence of `shutdown` calls on one record, each with its own direction and
caller-side `ec`; the record after the last one. -/
def shutdown_all (impl : implementation_type) (reqs : List (Int × error_code)) :
    implementation_type :=
  reqs.foldl (fun i r => (shutdown i r.1 r.2).impl) impl

/-- The postcondition of a move from source `A`: the source is left unopened
(null handle, sentinel `-1`, empty endpoint) and the destination holds the handle,
shutdown state and endpoint `A` had. -/
def transferred (m : Moved) (A : implementation_type) : Prop :=
  is_open m.other = false ∧ m.other.shutdown_ = -1 ∧ m.other.endpoint_ = "" ∧
  is_open m.impl = is_open A ∧ m.impl.socket_ = A.socket_ ∧
  m.impl.shutdown_ = A.shutdown_ ∧ m.impl.endpoint_ = A.endpoint_

instance (m : Moved) (A : implementation_type) : Decidable (transferred m A) := by
  unfold transferred
  infer_instance

/-- Close a record, then open it again: the record `do_open` leaves. `env`, `ec`
belong to the `close` call, `env2`, `ec2` to the `do_open` call. -/
def reopen (env env2 : Env) (ctx : context_pointer_type) (impl : implementation_type)
    (type : Int) (ec ec2 : error_code) : implementation_type :=
  (do_open env2 ctx (close env impl ec).impl type ec2).impl

/-! ## Concrete inputs -/

/-- A well-behaved environment: every native call succeeds; the descriptor of
handle `s` is `s + 100`; a null handle exposes no descriptor; nothing is a no-op. -/
def envOk : Env where
  errno := 0
  zmq_socket := fun _ _ => 7
  zmq_close := fun _ => 0
  socket_ops_native_handle := fun s ec =>
    if s = 0 then (make_error_code 88, 0) else (ec, (s : Int) + 100)
  register_descriptor := fun _ _ => (0, 1)
  deregister_descriptor := fun _ _ _ => 0
  move_descriptor := fun _ _ src => (src, 0)
  socket_ops_bind := fun _ _ ec => ec
  socket_ops_connect := fun _ _ ec => ec
  zmq_ctx_set := fun _ _ _ => 0
  zmq_ctx_get := fun _ _ => 1
  is_noop := fun _ => false
  is_continuation := fun _ => false

/-- Like `envOk`, but `socket_ops::bind` and `socket_ops::connect` fail with error 98. -/
def envRefused : Env :=
  { envOk with socket_ops_bind := fun _ _ _ => make_error_code 98,
               socket_ops_connect := fun _ _ _ => make_error_code 98 }

/-- Like `envOk`, but the reactor refuses the registration with error 12. -/
def envRegistrationFails : Env :=
  { envOk with register_descriptor := fun _ _ => (12, 0) }

/-- Like `envOk`, after handle `7` has been closed: `socket_ops::native_handle`
fails with error 88 for handle `7` as it does for the null handle. -/
def envHandleClosed : Env :=
  { envOk with socket_ops_native_handle := fun s ec =>
      if s = 0 ∨ s = 7 then (make_error_code 88, 0) else (ec, (s : Int) + 100) }

/-- Like `envOk`, but `zmq_ctx_set` fails: it returns `-1` and sets `errno` to 22. -/
def envCtxSetFails : Env :=
  { envOk with zmq_ctx_set := fun _ _ _ => -1, errno := 22 }

/-- Like `envOk` (`zmq_ctx_set` returns `0`), with `errno` still holding 11 from
some earlier call. -/
def envStaleErrno : Env :=
  { envOk with errno := 11 }

/-- Like `envOk`, but every operation is a no-op for `reactor_op::is_noop`. -/
def envNoop : Env :=
  { envOk with is_noop := fun _ => true, is_continuation := fun _ => true }

/-- A freshly constructed, unopened record. -/
def fresh : implementation_type := construct ⟨0, 0, "", 0⟩

/-- An open record with no endpoint and no shutdown yet. -/
def opened : implementation_type := ⟨7, -1, "", 1⟩

/-- An open record bound to an endpoint, shut down to direction `1`. -/
def bound : implementation_type := ⟨9, 1, "tcp://*:5555", 4⟩

/-- The record `do_open` leaves when the reactor refuses the registration: handle
`7` has been closed by the scope guard and is still stored in the record. -/
def stale : implementation_type :=
  (do_open envRegistrationFails 1 fresh 0 error_code.ok).impl

/-! ## Shared lemmas -/

/-- The `already_connected` code counts as an error in `if (ec)`. -/
theorem already_connected_failed :
    (make_error_code_errc errc.already_connected).failed = true := by decide

/-- With an endpoint recorded, `check_endpoint` answers `already_connected`. -/
theorem check_endpoint_recorded (impl : implementation_type) (ec : error_code)
    (h : impl.endpoint_ ≠ "") :
    check_endpoint impl ec = make_error_code_errc errc.already_connected := by
  simp [check_endpoint, h]

/-- With no endpoint recorded, `check_endpoint` hands back the caller's `ec`. -/
theorem check_endpoint_unrecorded (impl : implementation_type) (ec : error_code)
    (h : impl.endpoint_ = "") : check_endpoint impl ec = ec := by
  simp [check_endpoint, h]

/-- An endpoint call on a record with a recorded endpoint is rejected before any
native call. -/
theorem run_recorded (c : endpoint_call) (env : Env) (impl : implementation_type)
    (e : endpoint_type) (ec : error_code) (h : impl.endpoint_ ≠ "") :
    c.run env impl e ec =
      ⟨impl, make_error_code_errc errc.already_connected, [], Exit.returned⟩ := by
  cases c <;>
    simp [endpoint_call.run, bind, connect, check_endpoint_recorded impl ec h,
      already_connected_failed]

/-- An endpoint call that reports an error leaves the record as it was. -/
theorem run_failed_frame (c : endpoint_call) (env : Env) (impl : implementation_type)
    (e : endpoint_type) (ec : error_code) (h : (c.run env impl e ec).ec.failed = true) :
    (c.run env impl e ec).impl = impl := by
  cases c <;> simp only [endpoint_call.run, bind, connect] at h ⊢ <;>
    split <;> try rfl
  all_goals split <;> try rfl
  all_goals simp_all

/-- An endpoint call that reports no error has recorded its argument and touched
no other field. -/
theorem run_ok_records (c : endpoint_call) (env : Env) (impl : implementation_type)
    (e : endpoint_type) (ec : error_code) (h : (c.run env impl e ec).ec.failed = false) :
    (c.run env impl e ec).impl = { impl with endpoint_ := e } := by
  cases c <;> simp only [endpoint_call.run, bind, connect] at h ⊢ <;>
    split <;> simp_all
  all_goals split <;> simp_all

/-- With no endpoint recorded and a clear `ec` on entry, an endpoint call returns
exactly what its native call returns. -/
theorem run_unrecorded (c : endpoint_call) (env : Env) (impl : implementation_type)
    (e : endpoint_type) (ec : error_code) (h : impl.endpoint_ = "") (hec : ec.failed = false) :
    (c.run env impl e ec).ec = c.native env impl.socket_ e ec := by
  cases c <;>
    simp [endpoint_call.run, endpoint_call.native, bind, connect,
      check_endpoint_unrecorded impl ec h, hec] <;>
    split <;> rfl

/-- One `shutdown` call never lowers the recorded state. -/
theorem shutdown_state_le (impl : implementation_type) (w : Int) (ec : error_code) :
    impl.shutdown_ ≤ (shutdown impl w ec).impl.shutdown_ := by
  unfold shutdown
  split
  · exact le_refl _
  · split
    · exact le_refl _
    · simp only
      omega

/-- No sequence of `shutdown` calls lowers the recorded state. -/
theorem shutdown_all_le (reqs : List (Int × error_code)) (impl : implementation_type) :
    impl.shutdown_ ≤ (shutdown_all impl reqs).shutdown_ := by
  induction reqs generalizing impl with
  | nil => exact le_refl _
  | cons r rest ih =>
    have h1 := shutdown_state_le impl r.1 r.2
    have h2 := ih (shutdown impl r.1 r.2).impl
    simp only [shutdown_all, List.foldl_cons] at h2 ⊢
    exact le_trans h1 h2

/-! ## C1: a second bind/connect -/

/-- C1 as stated fails: a first `bind` whose native call is refused records no
endpoint, so a second `bind` on the same record is not rejected and succeeds. -/
theorem second_bind_after_refused_bind :
    (bind envRefused opened "tcp://*:5555" error_code.ok).ec.failed = true ∧
    (bind envOk (bind envRefused opened "tcp://*:5555" error_code.ok).impl
        "tcp://*:5556" error_code.ok).ec.failed = false ∧
    (bind envOk (bind envRefused opened "tcp://*:5555" error_code.ok).impl
        "tcp://*:5556" error_code.ok).ec ≠ make_error_code_errc errc.already_connected ∧
    endpoint (bind envOk (bind envRefused opened "tcp://*:5555" error_code.ok).impl
        "tcp://*:5556" error_code.ok).impl = "tcp://*:5556" := by
  decide

/-- C1 (amended): when the first `bind`/`connect` succeeded with a non-empty
endpoint string, or found an endpoint already recorded, every second
`bind`/`connect` on the record is rejected with `already_connected`, makes no
native call and leaves the record as the first call left it, whatever the native
call would have answered. When the first call failed on a record with no endpoint,
the record still has none, and a second call entered with a clear `ec` returns
what its own native call returns; nothing is said here of a second call entered
with an `ec` that already holds an error. -/
theorem second_endpoint_call_rejected (c1 c2 : endpoint_call) (env1 env2 : Env)
    (impl : implementation_type) (e1 e2 : endpoint_type) (ec1 ec2 : error_code) :
    ((impl.endpoint_ ≠ "" ∨ ((c1.run env1 impl e1 ec1).ec.failed = false ∧ e1 ≠ "")) →
      c2.run env2 (c1.run env1 impl e1 ec1).impl e2 ec2 =
        ⟨(c1.run env1 impl e1 ec1).impl, make_error_code_errc errc.already_connected, [],
         Exit.returned⟩) ∧
    (impl.endpoint_ = "" → (c1.run env1 impl e1 ec1).ec.failed = true →
      (c1.run env1 impl e1 ec1).impl.endpoint_ = "" ∧
      (ec2.failed = false →
        (c2.run env2 (c1.run env1 impl e1 ec1).impl e2 ec2).ec =
          c2.native env2 impl.socket_ e2 ec2)) := by
  refine ⟨?_, ?_⟩
  · intro h
    apply run_recorded
    rcases h with h | ⟨hok, hne⟩
    · rw [run_recorded c1 env1 impl e1 ec1 h]
      exact h
    · rw [run_ok_records c1 env1 impl e1 ec1 hok]
      exact hne
  · intro h hfail
    rw [run_failed_frame c1 env1 impl e1 ec1 hfail]
    exact ⟨h, fun hec => run_unrecorded c2 env2 impl e2 ec2 h hec⟩

/-- C1 (amended), at a concrete input: `connect` succeeds, the following `bind` is
rejected. -/
theorem second_endpoint_call_rejected_witness :
    (connect envOk opened "tcp://127.0.0.1:5555" error_code.ok).ec.failed = false ∧
    bind envOk (connect envOk opened "tcp://127.0.0.1:5555" error_code.ok).impl
        "tcp://*:5556" error_code.ok =
      ⟨⟨7, -1, "tcp://127.0.0.1:5555", 1⟩, make_error_code_errc errc.already_connected, [],
       Exit.returned⟩ :=
  ⟨by decide,
   (second_endpoint_call_rejected endpoint_call.connect endpoint_call.bind envOk envOk opened
     "tcp://127.0.0.1:5555" "tcp://*:5556" error_code.ok error_code.ok).1
     (Or.inr ⟨by decide, by decide⟩)⟩

/-! ## C2: shutdown -/

/-- C2, at the failing input: on the open record `opened` (state `-1`) the request
`shutdown(0)` is accepted (`0 ≥ -1`) and the state becomes `0`, yet, entered with a
caller-side `ec` holding error 11, the call returns that error: the accepted path
ends in `return ec` without resetting `ec`, where `cancel` and `close` reset it. -/
theorem shutdown_returns_stale_error :
    is_open opened = true ∧ opened.shutdown_ ≤ 0 ∧
    (shutdown opened 0 (make_error_code 11)).impl.shutdown_ = 0 ∧
    (shutdown opened 0 (make_error_code 11)).ec.failed = true := by
  decide

/-- What `shutdown` does on an open record with state `s`: with `w < s` it returns
`invalid_argument` and changes nothing; with `s ≤ w` it sets the state to `w` and
leaves the caller's `ec` as it found it, so that it returns no error when entered
with a clear `ec`; and over any sequence of `shutdown` calls the state never
decreases. -/
theorem shutdown_monotonic (impl : implementation_type) (w : Int) (ec : error_code)
    (hopen : is_open impl = true) :
    (w < impl.shutdown_ →
      shutdown impl w ec =
        ⟨impl, make_error_code_errc errc.invalid_argument, [], Exit.returned⟩) ∧
    (impl.shutdown_ ≤ w →
      shutdown impl w ec = ⟨{ impl with shutdown_ := w }, ec, [], Exit.returned⟩) ∧
    (impl.shutdown_ ≤ w → ec.failed = false → (shutdown impl w ec).ec.failed = false) ∧
    (∀ reqs : List (Int × error_code), impl.shutdown_ ≤ (shutdown_all impl reqs).shutdown_) := by
  have hs : impl.socket_ ≠ 0 := by simpa [is_open] using hopen
  have hge : impl.shutdown_ ≤ w →
      shutdown impl w ec = ⟨{ impl with shutdown_ := w }, ec, [], Exit.returned⟩ := by
    intro h
    simp [shutdown, hs, not_lt.mpr h]
  refine ⟨?_, hge, ?_, fun reqs => shutdown_all_le reqs impl⟩
  · intro h
    simp [shutdown, hs, h]
  · intro h hec
    rw [hge h]
    exact hec

/-- From state `1`, with a clear `ec`, direction `0` is refused and direction `2`
accepted without error. -/
theorem shutdown_monotonic_witness :
    shutdown ⟨7, 1, "", 1⟩ 0 error_code.ok =
      ⟨⟨7, 1, "", 1⟩, make_error_code_errc errc.invalid_argument, [], Exit.returned⟩ ∧
    shutdown ⟨7, 1, "", 1⟩ 2 error_code.ok = ⟨⟨7, 2, "", 1⟩, error_code.ok, [], Exit.returned⟩ :=
  ⟨(shutdown_monotonic ⟨7, 1, "", 1⟩ 0 error_code.ok (by decide)).1 (by decide),
   (shutdown_monotonic ⟨7, 1, "", 1⟩ 2 error_code.ok (by decide)).2.1 (by decide)⟩

/-! ## Lemmas on `destroy` and the moves -/

/-- The descriptor query answers the descriptor when `socket_ops` reports no error. -/
theorem native_handle_ok (env : Env) (impl : implementation_type)
    (h : (env.socket_ops_native_handle impl.socket_ error_code.ok).1.failed = false) :
    native_handle env impl =
      Except.ok (env.socket_ops_native_handle impl.socket_ error_code.ok).2 := by
  simp [native_handle, h]

/-- The descriptor query throws the code `socket_ops` reports. -/
theorem native_handle_error (env : Env) (impl : implementation_type)
    (h : (env.socket_ops_native_handle impl.socket_ error_code.ok).1.failed = true) :
    native_handle env impl =
      Except.error (env.socket_ops_native_handle impl.socket_ error_code.ok).1 := by
  simp [native_handle, h]

/-- On an unopened record `destroy` does nothing. -/
theorem destroy_unopened (env : Env) (impl : implementation_type)
    (h : is_open impl = false) : destroy env impl = ⟨impl, [], Exit.returned⟩ := by
  simp [destroy, h]

/-- On an open record whose descriptor query succeeds `destroy` returns, with the
handle nulled and endpoint and shutdown state untouched. -/
theorem destroy_open_ok (env : Env) (impl : implementation_type)
    (hopen : is_open impl = true)
    (hq : (env.socket_ops_native_handle impl.socket_ error_code.ok).1.failed = false) :
    (destroy env impl).exit = Exit.returned ∧ (destroy env impl).impl.socket_ = 0 ∧
    (destroy env impl).impl.endpoint_ = impl.endpoint_ ∧
    (destroy env impl).impl.shutdown_ = impl.shutdown_ := by
  have hs : impl.socket_ ≠ 0 := by simpa [is_open] using hopen
  simp [destroy, hopen, native_handle_ok env impl hq, close, hs]

/-- On an open record whose descriptor query fails `destroy` throws at once. -/
theorem destroy_open_threw (env : Env) (impl : implementation_type)
    (hopen : is_open impl = true)
    (hq : (env.socket_ops_native_handle impl.socket_ error_code.ok).1.failed = true) :
    destroy env impl =
      ⟨impl, [Event.native_handle impl.socket_],
       Exit.threw (env.socket_ops_native_handle impl.socket_ error_code.ok).1⟩ := by
  simp [destroy, hopen, native_handle_error env impl hq]

/-- In `move_construct` the field transfers happen whether or not the trailing
descriptor query throws. -/
theorem move_construct_transferred (env : Env) (impl other : implementation_type) :
    transferred (move_construct env impl other) other := by
  unfold transferred move_construct
  simp only []
  split <;> simp [is_open]

/-- In `move_assign`, once `destroy` has returned, the field transfers happen
whether or not the trailing descriptor query throws. -/
theorem move_assign_transferred (envd env : Env) (impl other : implementation_type)
    (h : (destroy envd impl).exit = Exit.returned) :
    transferred (move_assign envd env impl other) other := by
  unfold transferred move_assign
  simp only [h]
  split <;> simp [is_open]

/-! ## C3: open and a failed registration -/

/-- For every unopened record: when the handle is created, its descriptor found
and the registration refused with `err`, `do_open` returns `make_error_code(err)`,
ends with `zmq_close` on the created handle, and the record keeps that handle, so
`is_open` is true. -/
theorem do_open_registration_failure (env : Env) (ctx : context_pointer_type)
    (impl : implementation_type) (type : Int) (ec : error_code)
    (hctx : ctx ≠ 0) (hclosed : is_open impl = false)
    (hs : env.zmq_socket ctx type ≠ 0)
    (hq : (env.socket_ops_native_handle (env.zmq_socket ctx type) error_code.ok).1.failed = false)
    (hr : (env.register_descriptor
            (env.socket_ops_native_handle (env.zmq_socket ctx type) error_code.ok).2
            impl.reactor_data_).1 ≠ 0) :
    (do_open env ctx impl type ec).ec =
      make_error_code (env.register_descriptor
        (env.socket_ops_native_handle (env.zmq_socket ctx type) error_code.ok).2
        impl.reactor_data_).1 ∧
    (do_open env ctx impl type ec).trace.getLast? =
      some (Event.zmq_close (env.zmq_socket ctx type)) ∧
    (do_open env ctx impl type ec).impl.socket_ = env.zmq_socket ctx type ∧
    is_open (do_open env ctx impl type ec).impl = true := by
  have hn := native_handle_ok env { impl with socket_ := env.zmq_socket ctx type } hq
  have hz : impl.socket_ = 0 := by simpa [is_open] using hclosed
  simp only at hn
  simp [do_open, hctx, hz, hs, hn, hr, is_open]

/-- C3, at the failing input: on the fresh record, with the registration refused
(error 12), `do_open` returns that error and has closed handle `7`, yet the record
still refers to handle `7` and `is_open` is true. -/
theorem do_open_registration_failure_at_fresh :
    is_open fresh = false ∧
    do_open envRegistrationFails 1 fresh 0 error_code.ok =
      ⟨⟨7, -1, "", 0⟩, make_error_code 12,
       [Event.zmq_socket 1 0, Event.native_handle 7, Event.register_descriptor 107,
        Event.zmq_close 7], Exit.returned⟩ ∧
    is_open (do_open envRegistrationFails 1 fresh 0 error_code.ok).impl = true := by
  decide

/-! ## C4: moves -/

/-- C4 as stated fails for `move_assign` into an open destination whose descriptor
query fails (here the record a refused registration left behind, its handle
already closed): `destroy` throws before anything is moved, the source is still
open with its endpoint and shutdown state, and the destination has received
nothing. -/
theorem move_assign_destroy_threw :
    is_open stale = true ∧
    move_assign envHandleClosed envHandleClosed stale bound =
      ⟨stale, bound, [Event.native_handle 7], Exit.threw (make_error_code 88)⟩ ∧
    is_open (move_assign envHandleClosed envHandleClosed stale bound).other = true ∧
    (move_assign envHandleClosed envHandleClosed stale bound).other.endpoint_ ≠ "" ∧
    (move_assign envHandleClosed envHandleClosed stale bound).impl.socket_ ≠ bound.socket_ := by
  decide

/-- C4 (amended): after `move_construct(B, A)`, and after a `move_assign(B, A)`
whose initial `destroy(B)` does not throw (`B` unopened, or the descriptor query on
its handle succeeds), `A` is unopened with sentinel `-1` and empty endpoint, and
`B` has the handle, shutdown state and endpoint `A` had, so `is_open(B)` is the
former `is_open(A)`. When that query fails, `move_assign` throws its error and
leaves both records as they were. -/
theorem move_transfers_record (envd env : Env) (B A : implementation_type) :
    transferred (move_construct env B A) A ∧
    ((is_open B = true →
        (envd.socket_ops_native_handle B.socket_ error_code.ok).1.failed = false) →
      transferred (move_assign envd env B A) A) ∧
    (is_open B = true →
      (envd.socket_ops_native_handle B.socket_ error_code.ok).1.failed = true →
      move_assign envd env B A =
        ⟨B, A, [Event.native_handle B.socket_],
         Exit.threw (envd.socket_ops_native_handle B.socket_ error_code.ok).1⟩) := by
  refine ⟨move_construct_transferred env B A, ?_, ?_⟩
  · intro hq
    have hret : (destroy envd B).exit = Exit.returned := by
      cases hopen : is_open B
      · rw [destroy_unopened envd B hopen]
      · exact (destroy_open_ok envd B hopen (hq hopen)).1
    exact move_assign_transferred envd env B A hret
  · intro hopen hq
    simp [move_assign, destroy_open_threw envd B hopen hq]

/-- C4 (amended), at a concrete input: the bound record is move-assigned into an
open one. -/
theorem move_transfers_record_witness :
    transferred (move_assign envOk envOk opened bound) bound ∧
    (move_assign envOk envOk opened bound).impl = ⟨9, 1, "tcp://*:5555", 4⟩ ∧
    (move_assign envOk envOk opened bound).other = ⟨0, -1, "", 0⟩ :=
  ⟨(move_transfers_record envOk envOk opened bound).2.1 (fun _ => by decide),
   by decide, by decide⟩

/-! ## C5: a failed bind/connect changes nothing -/

/-- C5: for `bind` and `connect` alike, with any endpoint `e`: a call that returns
an error leaves the whole record (endpoint, handle, shutdown state) as it was; a
recorded endpoint gives `already_connected`; with no endpoint recorded and a clear
`ec` on entry the returned code is exactly what the native call returned; a call
that succeeds leaves `endpoint() = e` with handle and shutdown state untouched.
The scenario: on a record with no endpoint, when the native connect accepts
"endpoint-1", `connect("endpoint-1")` succeeds and `endpoint()` is "endpoint-1";
then `connect("endpoint-2")` returns `already_connected` and `endpoint()` is still
"endpoint-1". -/
theorem failed_endpoint_call_changes_nothing (c : endpoint_call) (env : Env)
    (impl : implementation_type) (e : endpoint_type) (ec : error_code) :
    ((c.run env impl e ec).ec.failed = true → (c.run env impl e ec).impl = impl) ∧
    (impl.endpoint_ ≠ "" →
      (c.run env impl e ec).ec = make_error_code_errc errc.already_connected) ∧
    (impl.endpoint_ = "" → ec.failed = false →
      (c.run env impl e ec).ec = c.native env impl.socket_ e ec) ∧
    ((c.run env impl e ec).ec.failed = false →
      endpoint (c.run env impl e ec).impl = e ∧
      (c.run env impl e ec).impl.socket_ = impl.socket_ ∧
      (c.run env impl e ec).impl.shutdown_ = impl.shutdown_) ∧
    (∀ (env2 : Env) (ec2 : error_code), impl.endpoint_ = "" → ec.failed = false →
      (env.socket_ops_connect impl.socket_ "endpoint-1" ec).failed = false →
      (connect env impl "endpoint-1" ec).ec.failed = false ∧
      endpoint (connect env impl "endpoint-1" ec).impl = "endpoint-1" ∧
      (connect env2 (connect env impl "endpoint-1" ec).impl "endpoint-2" ec2).ec =
        make_error_code_errc errc.already_connected ∧
      endpoint (connect env2 (connect env impl "endpoint-1" ec).impl "endpoint-2" ec2).impl =
        "endpoint-1") := by
  refine ⟨run_failed_frame c env impl e ec, ?_, ?_, ?_, ?_⟩
  · intro h
    rw [run_recorded c env impl e ec h]
  · exact run_unrecorded c env impl e ec
  · intro h
    rw [run_ok_records c env impl e ec h]
    simp [endpoint]
  · intro env2 ec2 h hec hn
    have h1 : connect env impl "endpoint-1" ec =
        ⟨{ impl with endpoint_ := "endpoint-1" },
         env.socket_ops_connect impl.socket_ "endpoint-1" ec,
         [Event.socket_connect impl.socket_ "endpoint-1"], Exit.returned⟩ := by
      simp [connect, check_endpoint_unrecorded impl ec h, hec, hn]
    have h2 := run_recorded endpoint_call.connect env2
      { impl with endpoint_ := "endpoint-1" } "endpoint-2" ec2 (by simp)
    simp only [endpoint_call.run] at h2
    rw [h1]
    simp only [h2, endpoint, hn]
    simp

/-- C5, the scenario on the open record `opened`: the first `connect` succeeds, the
second is rejected and the endpoint stays "endpoint-1". -/
theorem failed_endpoint_call_changes_nothing_witness :
    (connect envOk opened "endpoint-1" error_code.ok).ec.failed = false ∧
    endpoint (connect envOk opened "endpoint-1" error_code.ok).impl = "endpoint-1" ∧
    (connect envOk (connect envOk opened "endpoint-1" error_code.ok).impl "endpoint-2"
        error_code.ok).ec = make_error_code_errc errc.already_connected ∧
    endpoint (connect envOk (connect envOk opened "endpoint-1" error_code.ok).impl
        "endpoint-2" error_code.ok).impl = "endpoint-1" :=
  (failed_endpoint_call_changes_nothing endpoint_call.connect envOk opened "endpoint-1"
    error_code.ok).2.2.2.2 envOk error_code.ok (by decide) (by decide) (by decide)

/-! ## C6: context-scoped set_option -/

/-- With the context torn down `set_option` returns `make_error_code(EINVAL)`; with
a live one it stores the library error exactly when `zmq_ctx_set` returned `0`, and
otherwise returns the caller's `ec` untouched. -/
theorem context_set_option_cases (env : Env) (ctx : context_pointer_type) (name data : Int)
    (ec : error_code) :
    (ctx = 0 → context_set_option env ctx name data ec = make_error_code EINVAL) ∧
    (ctx ≠ 0 → env.zmq_ctx_set ctx name data = 0 →
      context_set_option env ctx name data ec = make_error_code env.errno) ∧
    (ctx ≠ 0 → env.zmq_ctx_set ctx name data ≠ 0 →
      context_set_option env ctx name data ec = ec) := by
  refine ⟨?_, ?_, ?_⟩
  · intro h
    simp [context_set_option, h]
  · intro h hrc
    simp [context_set_option, h, hrc]
  · intro h hrc
    simp [context_set_option, h, hrc]

/-- The sibling `get_option` tests the failure the right way round: with a live
context it stores the library error exactly when `zmq_ctx_get` returned a negative
value. -/
theorem context_get_option_cases (env : Env) (ctx : context_pointer_type) (name : Int)
    (ec : error_code) (h : ctx ≠ 0) :
    (env.zmq_ctx_get ctx name < 0 →
      context_get_option env ctx name ec = (make_error_code env.errno, none)) ∧
    (0 ≤ env.zmq_ctx_get ctx name →
      context_get_option env ctx name ec = (ec, some (env.zmq_ctx_get ctx name))) := by
  refine ⟨?_, ?_⟩
  · intro hrc
    simp [context_get_option, h, hrc]
  · intro hrc
    simp [context_get_option, h, not_lt.mpr hrc]

/-- C6, at the failing inputs: with a live context and a clear `ec`, a failed
`zmq_ctx_set` (`-1`, `errno` 22) is reported as no error, and a successful one
(`0`) is reported as the error `errno` happens to hold. -/
theorem context_set_option_inverted :
    envCtxSetFails.zmq_ctx_set 1 1 4 = -1 ∧
    (context_set_option envCtxSetFails 1 1 4 error_code.ok).failed = false ∧
    envStaleErrno.zmq_ctx_set 1 1 4 = 0 ∧
    context_set_option envStaleErrno 1 1 4 error_code.ok = make_error_code 11 ∧
    (context_set_option envStaleErrno 1 1 4 error_code.ok).failed = true := by
  decide

/-! ## C7: the non-blocking flag -/

/-- Bit `i` of a flags word. -/
theorem testBit_lor_dontwait (f : Int) (i : Nat) :
    Int.testBit (Int.lor f ZMQ_DONTWAIT) i = (Int.testBit f i || decide (i = 0)) := by
  rw [Int.testBit_lor]
  congr 1
  cases i with
  | zero => rfl
  | succ n =>
    have : Int.testBit ZMQ_DONTWAIT (n + 1) = Nat.testBit 1 (n + 1) := rfl
    rw [this]
    simp [Nat.testBit_succ]

/-- The op built by `async_send` has the `ZMQ_DONTWAIT` bit set and every other bit
as in the caller's flags. -/
theorem async_send_flags (env : Env) (impl : implementation_type) (buffers : List Nat)
    (handler : Nat) (f : Int) :
    Int.testBit (async_send env impl buffers handler f).op.flags_ 0 = true ∧
    ∀ i : Nat, i ≠ 0 →
      Int.testBit (async_send env impl buffers handler f).op.flags_ i = Int.testBit f i := by
  have hop : (async_send env impl buffers handler f).op.flags_ = Int.lor f ZMQ_DONTWAIT := rfl
  rw [hop]
  refine ⟨?_, ?_⟩
  · rw [testBit_lor_dontwait]
    simp
  · intro i hi
    rw [testBit_lor_dontwait]
    simp [hi]

/-- The op built by `async_receive` stores the caller's flags as they are. -/
theorem async_receive_flags (env : Env) (impl : implementation_type) (buffers : List Nat)
    (handler : Nat) (f : Int) :
    (async_receive env impl buffers handler f).op.flags_ = f := rfl

/-- C7, at the failing input: `async_receive` called with flags `0` builds an op
whose flags are `0`, the `ZMQ_DONTWAIT` bit clear, where `async_send` with the same
flags builds one with flags `1`. -/
theorem async_receive_not_forced_nonblocking :
    (async_receive envOk opened [16] 0 0).op.flags_ = 0 ∧
    Int.testBit (async_receive envOk opened [16] 0 0).op.flags_ 0 = false ∧
    (async_send envOk opened [16] 0 0).op.flags_ = 1 ∧
    Int.testBit (async_send envOk opened [16] 0 0).op.flags_ 0 = true := by
  decide

/-! ## C8: open on an open record -/

/-- C8: with a live context, `do_open` on a record with `is_open` true returns
`bad_file_descriptor`, makes no call at all (no handle created, no registration),
and leaves the record unchanged. -/
theorem do_open_rejects_open_record (env : Env) (ctx : context_pointer_type)
    (impl : implementation_type) (type : Int) (ec : error_code)
    (hctx : ctx ≠ 0) (hopen : is_open impl = true) :
    do_open env ctx impl type ec =
      ⟨impl, make_error_code_errc errc.bad_file_descriptor, [], Exit.returned⟩ := by
  simp [do_open, hctx, hopen]

/-- C8, at a concrete input: re-opening the bound record. -/
theorem do_open_rejects_open_record_witness :
    do_open envOk 1 bound 0 error_code.ok =
      ⟨⟨9, 1, "tcp://*:5555", 4⟩, ⟨9, error_category.generic⟩, [], Exit.returned⟩ :=
  do_open_rejects_open_record envOk 1 bound 0 error_code.ok (by decide) (by decide)

/-! ## C9: dispatch of async operations -/

/-- C9 as stated fails: on the unopened record the descriptor query fails, so a
send that is not a no-op is neither posted nor handed to the reactor; the query
error is thrown and the only call made is the query. -/
theorem async_send_unopened_not_dispatched :
    envOk.is_noop (async_send envOk fresh [16] 0 0).op = false ∧
    async_send envOk fresh [16] 0 0 =
      ⟨⟨op_kind.send, 0, [16], 0, 1⟩, [Event.native_handle 0],
       Exit.threw (make_error_code 88)⟩ := by
  decide

/-- C9 (amended): `start_op` posts a no-op to the immediate-completion queue with
the caller's continuation hint and makes no other call (no descriptor query, no
reactor `start_op`). Any other operation makes it query the descriptor: when the
query succeeds the operation goes to the reactor's `start_op` with the given
interest, that descriptor, the record's per-descriptor data and both hints
unchanged; when the query fails its error is thrown and the operation reaches
neither destination. `async_send` runs `start_op` with write interest and
`async_receive` with read interest, both with the handler's continuation hint and
`is_non_blocking = true`. -/
theorem start_op_dispatch (env : Env) (impl : implementation_type) (op_type : Int)
    (op : zeromq_op) (cont nb : Bool) (buffers : List Nat) (handler : Nat) (flags : Int) :
    (env.is_noop op = true →
      start_op env impl op_type op cont nb =
        ([Event.post_immediate_completion op cont], Exit.returned)) ∧
    (env.is_noop op = false → ∀ fd, native_handle env impl = Except.ok fd →
      start_op env impl op_type op cont nb =
        ([Event.native_handle impl.socket_,
          Event.start_op op_type fd impl.reactor_data_ op cont nb], Exit.returned)) ∧
    (env.is_noop op = false → ∀ e, native_handle env impl = Except.error e →
      start_op env impl op_type op cont nb =
        ([Event.native_handle impl.socket_], Exit.threw e)) ∧
    ((async_send env impl buffers handler flags).trace,
      (async_send env impl buffers handler flags).exit) =
      start_op env impl write_op (async_send env impl buffers handler flags).op
        (env.is_continuation handler) true ∧
    ((async_receive env impl buffers handler flags).trace,
      (async_receive env impl buffers handler flags).exit) =
      start_op env impl read_op (async_receive env impl buffers handler flags).op
        (env.is_continuation handler) true := by
  refine ⟨?_, ?_, ?_, rfl, rfl⟩
  · intro h
    simp [start_op, h]
  · intro h fd hq
    simp [start_op, h, hq]
  · intro h e hq
    simp [start_op, h, hq]

/-- C9 (amended), at concrete inputs: a receive on the open record goes to the
reactor with read interest on descriptor `107`; a no-op send is posted. -/
theorem start_op_dispatch_witness :
    start_op envOk opened read_op ⟨op_kind.receive, 7, [16], 3, 0⟩ false true =
      ([Event.native_handle 7,
        Event.start_op 0 107 1 ⟨op_kind.receive, 7, [16], 3, 0⟩ false true], Exit.returned) ∧
    start_op envNoop opened write_op ⟨op_kind.send, 7, [], 3, 1⟩ true true =
      ([Event.post_immediate_completion ⟨op_kind.send, 7, [], 3, 1⟩ true], Exit.returned) :=
  ⟨(start_op_dispatch envOk opened read_op ⟨op_kind.receive, 7, [16], 3, 0⟩ false true
      [] 0 0).2.1 (by decide) 107 rfl,
   (start_op_dispatch envNoop opened write_op ⟨op_kind.send, 7, [], 3, 1⟩ true true
      [] 0 0).1 (by decide)⟩

/-! ## C10: close and destroy reset only the handle -/

/-- Function `close` touches neither the endpoint nor the shutdown state. -/
theorem close_frame (env : Env) (impl : implementation_type) (ec : error_code) :
    (close env impl ec).impl.endpoint_ = impl.endpoint_ ∧
    (close env impl ec).impl.shutdown_ = impl.shutdown_ := by
  unfold close
  split <;> simp

/-- Function `do_open` touches neither the endpoint nor the shutdown state, on any path. -/
theorem do_open_frame (env : Env) (ctx : context_pointer_type) (impl : implementation_type)
    (type : Int) (ec : error_code) :
    (do_open env ctx impl type ec).impl.endpoint_ = impl.endpoint_ ∧
    (do_open env ctx impl type ec).impl.shutdown_ = impl.shutdown_ := by
  unfold do_open
  split
  · simp
  · split
    · simp
    · simp only []
      split
      · simp
      · split
        · simp
        · split <;> simp

/-- Closing and re-opening keeps the endpoint and the shutdown state. -/
theorem reopen_frame (env env2 : Env) (ctx : context_pointer_type)
    (impl : implementation_type) (type : Int) (ec ec2 : error_code) :
    (reopen env env2 ctx impl type ec ec2).endpoint_ = impl.endpoint_ ∧
    (reopen env env2 ctx impl type ec ec2).shutdown_ = impl.shutdown_ := by
  unfold reopen
  have h1 := do_open_frame env2 ctx (close env impl ec).impl type ec2
  have h2 := close_frame env impl ec
  exact ⟨h1.1.trans h2.1, h1.2.trans h2.2⟩

/-- C10 as stated fails for `destroy`: on an open record whose descriptor query
fails (here the record a refused registration left behind, its handle already
closed), `destroy` throws before closing and the record is still open. -/
theorem destroy_threw_leaves_open :
    is_open stale = true ∧
    destroy envHandleClosed stale =
      ⟨stale, [Event.native_handle 7], Exit.threw (make_error_code 88)⟩ ∧
    is_open (destroy envHandleClosed stale).impl = true := by
  decide

/-- C10 (amended): on an open record, `close` returns with `is_open` false and
endpoint and shutdown state as before, whatever `zmq_close` returns; so does a
`destroy` whose descriptor query succeeds, while one whose query fails throws and
leaves the record open and unchanged. A record on which `bind` or `connect` of a
non-empty endpoint succeeded, then closed and opened again, still rejects every
`bind`/`connect` with `already_connected`; and a record closed and opened again
still rejects, with `invalid_argument` and no change, every shutdown direction below
its old state. `destroy` on an unopened record changes nothing. -/
theorem close_resets_only_handle (env env2 env3 : Env) (ctx : context_pointer_type)
    (impl : implementation_type) (type : Int) (ec ec2 ec3 : error_code)
    (hopen : is_open impl = true) :
    ((close env impl ec).exit = Exit.returned ∧ is_open (close env impl ec).impl = false ∧
      endpoint (close env impl ec).impl = endpoint impl ∧
      (close env impl ec).impl.shutdown_ = impl.shutdown_) ∧
    ((env.socket_ops_native_handle impl.socket_ error_code.ok).1.failed = false →
      (destroy env impl).exit = Exit.returned ∧ is_open (destroy env impl).impl = false ∧
      endpoint (destroy env impl).impl = endpoint impl ∧
      (destroy env impl).impl.shutdown_ = impl.shutdown_) ∧
    ((env.socket_ops_native_handle impl.socket_ error_code.ok).1.failed = true →
      destroy env impl =
        ⟨impl, [Event.native_handle impl.socket_],
         Exit.threw (env.socket_ops_native_handle impl.socket_ error_code.ok).1⟩) ∧
    (∀ (c0 c : endpoint_call) (env0 : Env) (impl0 : implementation_type)
        (e0 e : endpoint_type) (ec0 : error_code),
      (c0.run env0 impl0 e0 ec0).ec.failed = false → e0 ≠ "" →
      c.run env3 (reopen env env2 ctx (c0.run env0 impl0 e0 ec0).impl type ec ec2) e ec3 =
        ⟨reopen env env2 ctx (c0.run env0 impl0 e0 ec0).impl type ec ec2,
         make_error_code_errc errc.already_connected, [], Exit.returned⟩) ∧
    (is_open (reopen env env2 ctx impl type ec ec2) = true → ∀ w : Int, w < impl.shutdown_ →
      shutdown (reopen env env2 ctx impl type ec ec2) w ec3 =
        ⟨reopen env env2 ctx impl type ec ec2, make_error_code_errc errc.invalid_argument, [],
         Exit.returned⟩) ∧
    (∀ r : implementation_type, is_open r = false →
      destroy env r = ⟨r, [], Exit.returned⟩) := by
  have hs : impl.socket_ ≠ 0 := by simpa [is_open] using hopen
  refine ⟨?_, ?_, destroy_open_threw env impl hopen, ?_, ?_,
    fun r hr => destroy_unopened env r hr⟩
  · simp [close, hs, is_open, endpoint]
  · intro hq
    have h := destroy_open_ok env impl hopen hq
    exact ⟨h.1, by simp [is_open, h.2.1], by simp [endpoint, h.2.2.1], h.2.2.2⟩
  · intro c0 c env0 impl0 e0 e ec0 hok hne
    apply run_recorded
    rw [(reopen_frame env env2 ctx _ type ec ec2).1, run_ok_records c0 env0 impl0 e0 ec0 hok]
    exact hne
  · intro hre w hw
    have hrs : (reopen env env2 ctx impl type ec ec2).socket_ ≠ 0 := by
      simpa [is_open] using hre
    have hsh := (reopen_frame env env2 ctx impl type ec ec2).2
    simp [shutdown, hrs, hsh, hw]

/-- C10 (amended), at a concrete input: the bound record is closed (with
`zmq_close` succeeding) and opened again; `connect` is still rejected and so is
shutdown direction `0`, below the old state `1`. -/
theorem close_resets_only_handle_witness :
    close envOk bound error_code.ok =
      ⟨⟨0, 1, "tcp://*:5555", 4⟩, error_code.ok, [Event.zmq_close 9], Exit.returned⟩ ∧
    reopen envOk envOk 1 bound 0 error_code.ok error_code.ok = ⟨7, 1, "tcp://*:5555", 1⟩ ∧
    shutdown (reopen envOk envOk 1 bound 0 error_code.ok error_code.ok) 0 error_code.ok =
      ⟨⟨7, 1, "tcp://*:5555", 1⟩, make_error_code_errc errc.invalid_argument, [],
       Exit.returned⟩ :=
  ⟨by decide, by decide,
   (close_resets_only_handle envOk envOk envOk 1 bound 0 error_code.ok error_code.ok
      error_code.ok (by decide)).2.2.2.2.1 (by decide) 0 (by decide)⟩

end Aziomq
